import Mathlib

/-!
Shallow embedding of the Zyndle AI client-side session/workflow controller:
the authentication wrapper (`AuthService` in the unnamed auth-service module)
and the React `App` / `VideoWorkspace` components (`src/frontend/src/App.jsx`).
JavaScript numbers that hold counts and indices are modelled as `Nat`;
the single fractional computation (`Math.round((correct/total)*100)`) is
modelled over `ℚ` with the exact `floor (x + 1/2)` semantics of `Math.round`
on nonnegative finite values.  Asynchronous code is modelled by passing the
outcome of each network request explicitly, and by small labelled transition
systems for the event-loop interleavings the claims talk about.
-/

namespace Zyndle

/-! ### Auth data model (auth-service module) -/

/-- The user identity stored by `AuthService.setAuthData`. -/
structure User where
  id : Nat
  email : String
  full_name : String
deriving Repr, DecidableEq

/-- The mutable state of the `AuthService` singleton: `this.token` and
`this.user` (the mirrored localStorage copies are not modelled separately). -/
structure AuthState where
  token : Option String
  user : Option User
deriving Repr, DecidableEq

/-- The distinct exceptions a call through `authenticatedFetch` can raise:
`noSession` is `throw new Error('No authentication token')`,
`sessionExpired` is `throw new Error('Authentication expired')`,
`network` is the underlying `fetch` promise rejecting. -/
inductive AuthError where
  | noSession
  | sessionExpired
  | network
deriving Repr, DecidableEq

/-- An HTTP response as seen by this client: a status code and a decoded
JSON body of endpoint-specific type `β`. -/
structure HttpResponse (β : Type) where
  status : Nat
  body : β
deriving Repr, DecidableEq

/-- The outcome of one attempted network request: either some HTTP response
arrives, or the transport fails (the `fetch` promise rejects). -/
inductive RequestResult (β : Type) where
  | success (r : HttpResponse β)
  | netFailure
deriving Repr, DecidableEq

/-- What one call to `authenticatedFetch` produces: the auth state after the
call, the returned response or raised error, and how many network requests
were actually issued (0 or 1; the primitive never retries). -/
structure FetchResult (β : Type) where
  state : AuthState
  result : Except AuthError (HttpResponse β)
  requestCount : Nat
deriving Repr

/-- `AuthService.logout()`: clears token and identity unconditionally. -/
def logout (_s : AuthState) : AuthState :=
  { token := none, user := none }

/-- `AuthService.authenticatedFetch(url, options)`:
throws `No authentication token` without issuing a request when no token is
held; otherwise issues exactly one request with the bearer header; a 401
response triggers `this.logout()` and `throw new Error('Authentication expired')`;
every other response is returned to the caller unchanged. -/
def authenticatedFetch {β : Type} (s : AuthState) (outcome : RequestResult β) :
    FetchResult β :=
  match s.token with
  | none => { state := s, result := .error .noSession, requestCount := 0 }
  | some _ =>
    match outcome with
    | .netFailure => { state := s, result := .error .network, requestCount := 1 }
    | .success r =>
      if r.status = 401 then
        { state := logout s, result := .error .sessionExpired, requestCount := 1 }
      else
        { state := s, result := .ok r, requestCount := 1 }

/-- JavaScript `String.prototype.trim()`: strips whitespace from both ends
(written with structural list recursion so that concrete instances
evaluate). -/
def jsTrim (m : String) : String :=
  ⟨((m.data.dropWhile Char.isWhitespace).reverse.dropWhile Char.isWhitespace).reverse⟩

/-! ### Notes (VideoWorkspace: loadNotes / saveNote / deleteNote) -/

/-- A note record as used by the notes endpoints: `{id, title, content}`. -/
structure Note where
  id : Nat
  title : String
  content : String
deriving Repr, DecidableEq

/-- The notes-related component state: the `notes` list and the `newNote`
input field. -/
structure NotesState where
  notes : List Note
  newNote : String
deriving Repr, DecidableEq

/-- `deleteNote(noteId)`: awaits `authenticatedFetch(DELETE /notes/{id})`;
if the call raises, the `catch` only logs and the list is unchanged; if any
response is returned (the status is never inspected), the local list is
filtered by id afterwards. -/
def deleteNote (auth : AuthState) (s : NotesState) (noteId : Nat)
    (outcome : RequestResult Unit) : AuthState × NotesState :=
  let fr := authenticatedFetch auth outcome
  match fr.result with
  | .ok _ => (fr.state, { s with notes := s.notes.filter (fun n => n.id != noteId) })
  | .error _ => (fr.state, s)

/-- `saveNote()`: returns early when the input is blank after trimming;
otherwise awaits `authenticatedFetch(POST /notes)`, decodes the JSON body of
whatever response came back (the status is never inspected), prepends it to
the list and clears the input; if the call raises, the `catch` only logs. -/
def saveNote (auth : AuthState) (s : NotesState) (outcome : RequestResult Note) :
    AuthState × NotesState :=
  if jsTrim s.newNote = "" then (auth, s)
  else
    let fr := authenticatedFetch auth outcome
    match fr.result with
    | .ok r => (fr.state, { notes := r.body :: s.notes, newNote := "" })
    | .error _ => (fr.state, s)

/-! ### Quiz state and grading (VideoWorkspace) -/

/-- A quiz question as returned by `POST /quiz`:
`{question, options[], correct_answer, explanation}`. -/
structure Question where
  question : String
  options : List String
  correct_answer : Nat
  explanation : String
deriving Repr, DecidableEq, Inhabited

/-- The `quizAnswers` JavaScript object, mapping question index to selected
option index.  Modelled as an association list in insertion order with
pairwise-distinct keys, exactly the key/value structure a plain object holds. -/
abbrev QuizAnswers := List (Nat × Nat)

/-- Property read `quizAnswers[i]`: the value at key `i`, if present. -/
def lookupAnswer : QuizAnswers → Nat → Option Nat
  | [], _ => none
  | (k, v) :: rest, i => if k = i then some v else lookupAnswer rest i

/-- Property write `{...prev, [k]: v}`: overwrites the value when the key is
already present, otherwise adds the new key. -/
def setAnswer (m : QuizAnswers) (k v : Nat) : QuizAnswers :=
  if m.any (fun p => p.1 == k) then
    m.map (fun p => if p.1 = k then (k, v) else p)
  else m ++ [(k, v)]

/-- `Object.keys(m)` (keys of an answers object, as numbers). -/
def objectKeys (m : QuizAnswers) : List Nat := m.map Prod.fst

/-- The quiz-related component state of `VideoWorkspace`:
`quizQuestions`, `quizAnswers`, `quizSubmitted`, `quizScore`. -/
structure QuizState where
  quizQuestions : List Question
  quizAnswers : QuizAnswers
  quizSubmitted : Bool
  quizScore : Nat
deriving Repr, DecidableEq

/-- The quiz state right after questions have been loaded: no answers yet,
not submitted, score 0 (the `useState` initial values). -/
def initialQuizState (qs : List Question) : QuizState :=
  { quizQuestions := qs, quizAnswers := [], quizSubmitted := false, quizScore := 0 }

/-- `handleQuizAnswer(questionIndex, answerIndex)`: functional update of the
`quizAnswers` object. -/
def handleQuizAnswer (s : QuizState) (qIndex aIndex : Nat) : QuizState :=
  { s with quizAnswers := setAnswer s.quizAnswers qIndex aIndex }

/-- `resetQuiz()`: clears answers, submitted flag and score; the question
list is untouched (no re-fetch). -/
def resetQuiz (s : QuizState) : QuizState :=
  { s with quizAnswers := [], quizSubmitted := false, quizScore := 0 }

/-- The `correct` counter computed by `submitQuiz`: a `forEach` over
`quizQuestions` incrementing where `quizAnswers[index] === question.correct_answer`
(an absent answer is `undefined` and never equal to a number, so it counts
as incorrect). -/
def countCorrect (questions : List Question) (answers : QuizAnswers) : Nat :=
  questions.enum.countP (fun p => lookupAnswer answers p.1 == some p.2.correct_answer)

/-- JavaScript `Math.round` on a nonnegative finite value, exactly:
the integer nearest to `x`, halves rounding up — `⌊x + 1/2⌋`. -/
def mathRound (x : ℚ) : ℕ := ⌊x + 1/2⌋₊

/-- The score computed by `submitQuiz`:
`Math.round((correct / quizQuestions.length) * 100)`. -/
def scoreOf (questions : List Question) (answers : QuizAnswers) : ℕ :=
  mathRound (((countCorrect questions answers : ℚ) / questions.length) * 100)

/-- The number of correctly answered question indices as the spec words it:
positions `i` below the question count at which the selected option index
equals that question's correct-option-index. -/
def specCorrectCount (questions : List Question) (answers : QuizAnswers) : Nat :=
  ((List.range questions.length).filter
    (fun i => lookupAnswer answers i == some ((questions.getD i default).correct_answer))).length

/-- What one run of `submitQuiz` produces: the quiz state (score set, flag
set), the auth state after the record call, the `{score, total_questions}`
payload of the record request when one was actually issued, and the
user-facing error, which the `catch` (log-only) keeps at `none`. -/
structure SubmitResult where
  quiz : QuizState
  auth : AuthState
  recordPayload : Option (Nat × Nat)
  userError : Option String
deriving Repr

/-- `submitQuiz()`: grades locally, sets `quizScore` and `quizSubmitted`,
then fires `authenticatedFetch(POST /progress/record-quiz)` with
`{score, total_questions}`; a failure of that call is caught and only logged. -/
def submitQuiz (auth : AuthState) (s : QuizState) (outcome : RequestResult Unit) :
    SubmitResult :=
  let score := scoreOf s.quizQuestions s.quizAnswers
  let s1 := { s with quizScore := score, quizSubmitted := true }
  let fr := authenticatedFetch (β := Unit) auth outcome
  { quiz := s1
    auth := fr.state
    recordPayload :=
      if fr.requestCount = 0 then none else some (score, s.quizQuestions.length)
    userError :=
      match fr.result with
      | .ok _ => none
      | .error _ => none }

/-- The `disabled` guard on the Submit Quiz button:
`Object.keys(quizAnswers).length < quizQuestions.length`. -/
def submitDisabled (s : QuizState) : Bool :=
  (objectKeys s.quizAnswers).length < s.quizQuestions.length

/-- Clicking the Submit Quiz button: a disabled button fires nothing
(no grading, no record request); otherwise `submitQuiz` runs. -/
def submitClick (auth : AuthState) (s : QuizState) (outcome : RequestResult Unit) :
    SubmitResult :=
  if submitDisabled s then
    { quiz := s, auth := auth, recordPayload := none, userError := none }
  else submitQuiz auth s outcome

/-- The quiz pane renders the results view exactly when `quizSubmitted`
(`!quizSubmitted ? answer-form : results`). -/
def quizResultsShown (s : QuizState) : Bool := s.quizSubmitted

/-- The quiz states reachable in one `VideoWorkspace` after the questions
have loaded: answers are only ever set through `handleQuizAnswer` from a
radio button of a rendered question (so with a question index below the
question count), and `resetQuiz` clears them. -/
inductive QuizReachable (qs : List Question) : QuizState → Prop where
  | init : QuizReachable qs (initialQuizState qs)
  | answer {s : QuizState} (qIndex aIndex : Nat) :
      QuizReachable qs s → qIndex < qs.length →
      QuizReachable qs (handleQuizAnswer s qIndex aIndex)
  | reset {s : QuizState} :
      QuizReachable qs s → QuizReachable qs (resetQuiz s)

/-! ### Chat (VideoWorkspace: handleChat) -/

/-- A chat message role (`'user'` or `'assistant'` in the source). -/
inductive Role where
  | user
  | assistant
deriving Repr, DecidableEq

/-- One `chatHistory` entry: `{role, content}`. -/
structure ChatMsg where
  role : Role
  content : String
deriving Repr, DecidableEq

/-- The fixed fallback assistant text appended by `handleChat`'s catch. -/
def fallbackContent : String := "Sorry, I encountered an error. Please try again."

/-- The chat-related component state: the history plus the number of chat
requests currently in flight. -/
structure ChatState where
  chatHistory : List ChatMsg
  pendingChat : Nat
deriving Repr, DecidableEq

/-- The event-loop events relevant to the chat log: the user sends a message
(one synchronous turn of `handleChat` up to its `await`, which appends the
user entry and issues one request), and one in-flight request resolves,
either with an answer or with a failure. -/
inductive ChatEvent where
  | send (message : String)
  | resolveOk (answer : String)
  | resolveErr
deriving Repr, DecidableEq

/-- One event-loop turn of the chat log.  `send`: `handleChat` returns
early on a blank (trimmed) message, otherwise appends the user entry
synchronously (each user action runs after React has re-rendered, so the
snapshot it spreads is the current history) and leaves one request pending.
`resolveOk`/`resolveErr`: the continuation after the `await` runs the
functional update `prev => [...prev, assistantEntry]`, appending the answer
or, in the `catch`, the fixed fallback message; no request is re-issued. -/
def chatStep (s : ChatState) (e : ChatEvent) : ChatState :=
  match e with
  | .send m =>
    if jsTrim m = "" then s
    else { chatHistory := s.chatHistory ++ [⟨Role.user, m⟩],
           pendingChat := s.pendingChat + 1 }
  | .resolveOk a =>
    if s.pendingChat = 0 then s
    else { chatHistory := s.chatHistory ++ [⟨Role.assistant, a⟩],
           pendingChat := s.pendingChat - 1 }
  | .resolveErr =>
    if s.pendingChat = 0 then s
    else { chatHistory := s.chatHistory ++ [⟨Role.assistant, fallbackContent⟩],
           pendingChat := s.pendingChat - 1 }

/-- Running a sequence of chat events. -/
def chatRun (s : ChatState) (evs : List ChatEvent) : ChatState :=
  evs.foldl chatStep s

/-- Whether an event is the resolution of an in-flight request (as opposed
to a fresh user send). -/
def isResolveEvent : ChatEvent → Bool
  | .send _ => false
  | .resolveOk _ => true
  | .resolveErr => true

/-! ### Workspace tabs and the quiz fetch (VideoWorkspace: useEffect + loadQuiz) -/

/-- The workspace tabs. -/
inductive Tab where
  | summary
  | chat
  | quiz
  | notes
deriving Repr, DecidableEq

/-- The part of `VideoWorkspace` state that drives the quiz fetch:
`activeTab`, the cached `quizQuestions`, the `isLoadingQuiz` flag, plus two
observers of the trace — how many `POST /quiz` requests have been issued and
how many are still in flight. -/
structure WorkspaceState where
  activeTab : Tab
  quizQuestions : List Question
  isLoadingQuiz : Bool
  quizFetchCount : Nat
  pendingQuizFetch : Nat
deriving Repr, DecidableEq

/-- The events relevant to the quiz fetch: the user selects a tab, and an
in-flight quiz request resolves with a question list or fails. -/
inductive WorkspaceEvent where
  | selectTab (t : Tab)
  | quizResolve (qs : List Question)
  | quizFail
deriving Repr, DecidableEq

/-- One event-loop turn of the tab/fetch machine.  `selectTab t`: selecting
the already-active tab is a no-op (`setActiveTab` with an identical value
does not re-run the `[activeTab]` effect); on a genuine change the effect
runs, and when the new tab is `quiz` with no cached questions it calls
`loadQuiz`, whose own `quizQuestions.length > 0` guard is the same check, so
one request is issued and `isLoadingQuiz` is set — note that neither check
consults `isLoadingQuiz`, so this fires even while a previous fetch is still
pending.  `quizResolve qs`: the continuation stores `data.questions` and the
`finally` clears the loading flag.  `quizFail`: the `catch` logs and the
`finally` clears the loading flag. -/
def workspaceStep (s : WorkspaceState) (e : WorkspaceEvent) : WorkspaceState :=
  match e with
  | .selectTab t =>
    if t = s.activeTab then s
    else
      let s1 := { s with activeTab := t }
      if t = Tab.quiz && s1.quizQuestions.isEmpty then
        { s1 with isLoadingQuiz := true,
                  quizFetchCount := s1.quizFetchCount + 1,
                  pendingQuizFetch := s1.pendingQuizFetch + 1 }
      else s1
  | .quizResolve qs =>
    if s.pendingQuizFetch = 0 then s
    else { s with quizQuestions := qs, isLoadingQuiz := false,
                  pendingQuizFetch := s.pendingQuizFetch - 1 }
  | .quizFail =>
    if s.pendingQuizFetch = 0 then s
    else { s with isLoadingQuiz := false,
                  pendingQuizFetch := s.pendingQuizFetch - 1 }

/-- Running a sequence of workspace events. -/
def workspaceRun (s : WorkspaceState) (evs : List WorkspaceEvent) : WorkspaceState :=
  evs.foldl workspaceStep s

/-- The `VideoWorkspace` mount state: summary tab, no cached questions,
nothing loading, nothing fetched. -/
def initialWorkspace : WorkspaceState :=
  { activeTab := Tab.summary, quizQuestions := [], isLoadingQuiz := false,
    quizFetchCount := 0, pendingQuizFetch := 0 }

/-- Whether a workspace event is a tab selection. -/
def isSelectEvent : WorkspaceEvent → Bool
  | .selectTab _ => true
  | .quizResolve _ => false
  | .quizFail => false

/-! ### App workflow state and handleAnalyze -/

/-- The analyze response body consumed by the workspace. -/
structure VideoData where
  title : String
  channel : String
  duration : String
  summary : String
  transcript : String
deriving Repr, DecidableEq

/-- The `App` component state driving which screen is shown. -/
structure AppState where
  youtubeUrl : String
  isAnalyzing : Bool
  videoData : Option VideoData
  showVideoInput : Bool
  showAuth : Bool
  showProgress : Bool
  authMode : String
deriving Repr, DecidableEq

/-- The screen `App` renders. -/
inductive View where
  | workspace
  | authPage (mode : String)
  | progress
  | videoInput
  | home
deriving Repr, DecidableEq

/-- `App`'s render precedence: `videoData` wins, then `showAuth`, then
`showProgress`, then `showVideoInput`, else the home page. -/
def renderView (s : AppState) : View :=
  if s.videoData.isSome then View.workspace
  else if s.showAuth then View.authPage s.authMode
  else if s.showProgress then View.progress
  else if s.showVideoInput then View.videoInput
  else View.home

/-- What one run of `handleAnalyze` produces: the app state afterwards, the
auth state afterwards, whether the `catch` logged to the console, and the
user-visible error message it set — `App` has no error state for analyze
failures, so this is always `none`. -/
structure AnalyzeResult where
  app : AppState
  auth : AuthState
  consoleLogged : Bool
  surfacedError : Option String
deriving Repr

/-- `handleAnalyze()`: returns early on an empty URL; otherwise sets
`isAnalyzing`, awaits `authenticatedFetch(POST /analyze)`, and on a returned
response stores the decoded body as `videoData`; the `catch` logs, and only
when the error message is `Authentication expired` redirects to the sign-in
form; the `finally` clears `isAnalyzing`.  No user-facing error is set in
any branch. -/
def handleAnalyze (auth : AuthState) (app : AppState)
    (outcome : RequestResult VideoData) : AnalyzeResult :=
  if app.youtubeUrl = "" then
    { app := app, auth := auth, consoleLogged := false, surfacedError := none }
  else
    let app1 := { app with isAnalyzing := true }
    let fr := authenticatedFetch auth outcome
    match fr.result with
    | .ok r =>
      { app := { app1 with videoData := some r.body, isAnalyzing := false }
        auth := fr.state, consoleLogged := false, surfacedError := none }
    | .error e =>
      let app2 :=
        if e = AuthError.sessionExpired then
          { app1 with showAuth := true, authMode := "signin" }
        else app1
      { app := { app2 with isAnalyzing := false }
        auth := fr.state, consoleLogged := true, surfacedError := none }

/-! ### Helper lemmas -/

/-- `Math.round((c/t)*100)` on exact rationals agrees with the natural-number
computation `(200c + t) / (2t)`. -/
theorem mathRound_frac (c t : ℕ) (ht : 0 < t) :
    mathRound ((c : ℚ) / t * 100) = (200 * c + t) / (2 * t) := by
  unfold mathRound
  have ht' : (t : ℚ) ≠ 0 := by positivity
  have h : ((c : ℚ) / t * 100 + 1/2) = ((200 * c + t : ℕ) : ℚ) / ((2 * t : ℕ) : ℚ) := by
    push_cast
    field_simp
    ring
  rw [h, Nat.floor_div_nat, Nat.floor_natCast]

/-- The `forEach`-style correct counter of `submitQuiz` equals the spec's
count over question indices. -/
theorem countCorrect_eq_specCorrectCount (qs : List Question) (ans : QuizAnswers) :
    countCorrect qs ans = specCorrectCount qs ans := by
  unfold countCorrect specCorrectCount
  rw [List.enum_eq_zip_range, ← List.countP_eq_length_filter]
  have hz : (List.range qs.length).zip qs
      = (List.range qs.length).map (fun i => (i, qs.getD i default)) := by
    apply List.ext_get
    · simp
    · intro n h1 h2
      simp only [List.get_eq_getElem, List.getElem_zip, List.getElem_map, List.getElem_range]
      have hn : n < qs.length := by simpa using h2
      rw [List.getD_eq_getElem qs default hn]
  rw [hz, List.countP_map]
  rfl

/-- On a nonempty quiz the computed score equals a pure natural-number
division, which makes concrete evaluation possible. -/
theorem scoreOf_eq_natDiv (qs : List Question) (ans : QuizAnswers) (h : qs ≠ []) :
    scoreOf qs ans = (200 * countCorrect qs ans + qs.length) / (2 * qs.length) := by
  unfold scoreOf
  exact mathRound_frac _ _ (List.length_pos.mpr h)

/-- An answers object has a value at key `i` exactly when `i` is among its
keys. -/
theorem lookupAnswer_isSome_iff (m : QuizAnswers) (i : Nat) :
    (lookupAnswer m i).isSome = true ↔ i ∈ objectKeys m := by
  induction m with
  | nil => simp [lookupAnswer, objectKeys]
  | cons p rest ih =>
    obtain ⟨k, v⟩ := p
    by_cases h : k = i
    · subst h
      simp [lookupAnswer, objectKeys]
    · have h' : ¬ i = k := fun hik => h hik.symm
      simp only [lookupAnswer, objectKeys, List.map_cons, List.mem_cons, if_neg h]
      rw [show (rest.map Prod.fst) = objectKeys rest from rfl, ← ih]
      simp [h']

/-- The keys after a property write: unchanged when the key existed,
otherwise the new key is appended. -/
theorem objectKeys_setAnswer (m : QuizAnswers) (k v : Nat) :
    objectKeys (setAnswer m k v)
      = if k ∈ objectKeys m then objectKeys m else objectKeys m ++ [k] := by
  have hmem : (m.any (fun p => p.1 == k) = true) ↔ k ∈ objectKeys m := by
    simp only [List.any_eq_true, objectKeys, List.mem_map, beq_iff_eq]
  by_cases hk : k ∈ objectKeys m
  · rw [if_pos hk]
    unfold setAnswer
    rw [if_pos (hmem.mpr hk)]
    unfold objectKeys
    rw [List.map_map]
    have hfun : (Prod.fst ∘ fun p : Nat × Nat => if p.1 = k then (k, v) else p)
        = Prod.fst := by
      funext p
      by_cases hp : p.1 = k
      · simp [hp]
      · simp [hp]
    rw [hfun]
  · rw [if_neg hk]
    unfold setAnswer
    rw [if_neg (fun h => hk (hmem.mp h))]
    unfold objectKeys
    simp

/-- Invariant of the reachable quiz states: the question list is the loaded
one, the answer keys are pairwise distinct, and every key is a valid
question index. -/
theorem quizReachable_invariant {qs : List Question} {s : QuizState}
    (h : QuizReachable qs s) :
    s.quizQuestions = qs ∧ (objectKeys s.quizAnswers).Nodup ∧
      ∀ k ∈ objectKeys s.quizAnswers, k < qs.length := by
  induction h with
  | init =>
    refine ⟨rfl, ?_, ?_⟩ <;> simp [initialQuizState, objectKeys]
  | @answer s qIndex aIndex hr hlt ih =>
    obtain ⟨hq, hnd, hk⟩ := ih
    refine ⟨hq, ?_, ?_⟩
    · show (objectKeys (setAnswer s.quizAnswers qIndex aIndex)).Nodup
      rw [objectKeys_setAnswer]
      by_cases hmem : qIndex ∈ objectKeys s.quizAnswers
      · rwa [if_pos hmem]
      · rw [if_neg hmem]
        simp [List.nodup_append, hnd, hmem]
    · show ∀ k ∈ objectKeys (setAnswer s.quizAnswers qIndex aIndex), k < qs.length
      rw [objectKeys_setAnswer]
      by_cases hmem : qIndex ∈ objectKeys s.quizAnswers
      · rw [if_pos hmem]
        exact hk
      · rw [if_neg hmem]
        intro k hkm
        rcases List.mem_append.mp hkm with h1 | h2
        · exact hk k h1
        · rw [List.mem_singleton.mp h2]
          exact hlt
  | reset hr ih =>
    refine ⟨ih.1, ?_, ?_⟩ <;> simp [resetQuiz, objectKeys]

/-- Pigeonhole for answer keys: a duplicate-free list of indices below `n`
has length at least `n` exactly when it covers every index below `n`. -/
theorem keys_cover_iff (n : Nat) (ks : List Nat) (hnd : ks.Nodup)
    (hlt : ∀ k ∈ ks, k < n) :
    n ≤ ks.length ↔ ∀ i < n, i ∈ ks := by
  constructor
  · intro hlen i hi
    have hsub : ks.toFinset ⊆ Finset.range n := by
      intro x hx
      exact Finset.mem_range.mpr (hlt x (List.mem_toFinset.mp hx))
    have hcard : (Finset.range n).card ≤ ks.toFinset.card := by
      rw [Finset.card_range, List.toFinset_card_of_nodup hnd]
      exact hlen
    have heq := Finset.eq_of_subset_of_card_le hsub hcard
    have hmem : i ∈ ks.toFinset := by
      rw [heq]
      exact Finset.mem_range.mpr hi
    exact List.mem_toFinset.mp hmem
  · intro hall
    have hsub : Finset.range n ⊆ ks.toFinset := by
      intro x hx
      exact List.mem_toFinset.mpr (hall x (Finset.mem_range.mp hx))
    have hle := Finset.card_le_card hsub
    rwa [Finset.card_range, List.toFinset_card_of_nodup hnd] at hle

/-- Running only request-resolution events appends only assistant entries
to the chat log. -/
theorem chatRun_resolve_appendix (rs : List ChatEvent)
    (h : ∀ e ∈ rs, isResolveEvent e = true) (s : ChatState) :
    ∃ t, (chatRun s rs).chatHistory = s.chatHistory ++ t ∧
      ∀ m ∈ t, m.role = Role.assistant := by
  induction rs generalizing s with
  | nil => exact ⟨[], by simp [chatRun], by simp⟩
  | cons e rest ih =>
    have hrest : ∀ x ∈ rest, isResolveEvent x = true :=
      fun x hx => h x (List.mem_cons_of_mem _ hx)
    obtain ⟨t, ht, hta⟩ := ih hrest (chatStep s e)
    have hrun : chatRun s (e :: rest) = chatRun (chatStep s e) rest := rfl
    cases e with
    | send m =>
      simpa [isResolveEvent] using h _ (List.mem_cons_self _ _)
    | resolveOk a =>
      by_cases hp : s.pendingChat = 0
      · refine ⟨t, ?_, hta⟩
        rw [hrun, ht]
        simp [chatStep, hp]
      · refine ⟨⟨Role.assistant, a⟩ :: t, ?_, ?_⟩
        · rw [hrun, ht]
          simp [chatStep, hp]
        · intro m hm
          rcases List.mem_cons.mp hm with h1 | h2
          · rw [h1]
          · exact hta m h2
    | resolveErr =>
      by_cases hp : s.pendingChat = 0
      · refine ⟨t, ?_, hta⟩
        rw [hrun, ht]
        simp [chatStep, hp]
      · refine ⟨⟨Role.assistant, fallbackContent⟩ :: t, ?_, ?_⟩
        · rw [hrun, ht]
          simp [chatStep, hp]
        · intro m hm
          rcases List.mem_cons.mp hm with h1 | h2
          · rw [h1]
          · exact hta m h2

/-! ### Claim theorems -/

/-- C1: for every loaded quiz with a non-empty question list and every
answer mapping, `submitQuiz` sets the score to
`round(100 × correct/total)`, where `correct` is the number of question
indices at which the selected option index equals that question's
correct-option-index; unanswered questions count as incorrect. -/
theorem C1_quiz_grading (auth : AuthState) (s : QuizState)
    (outcome : RequestResult Unit) (_hne : s.quizQuestions ≠ []) :
    (submitQuiz auth s outcome).quiz.quizScore
      = mathRound (100 * (specCorrectCount s.quizQuestions s.quizAnswers : ℚ)
          / s.quizQuestions.length) := by
  have hq : (submitQuiz auth s outcome).quiz.quizScore
      = scoreOf s.quizQuestions s.quizAnswers := rfl
  rw [hq]
  unfold scoreOf
  rw [countCorrect_eq_specCorrectCount]
  congr 1
  ring

/-- C1 witness: the spec's concrete instance — questions
`[{correct:1},{correct:0}]` with answers `{0:1, 1:1}` grade to 50. -/
theorem C1_quiz_grading_witness :
    (([⟨"", [], 1, ""⟩, ⟨"", [], 0, ""⟩] : List Question) ≠ []) ∧
    (submitQuiz ⟨some "tok", none⟩
        ⟨[⟨"", [], 1, ""⟩, ⟨"", [], 0, ""⟩], [(0, 1), (1, 1)], false, 0⟩
        RequestResult.netFailure).quiz.quizScore
      = mathRound (100 * (specCorrectCount [⟨"", [], 1, ""⟩, ⟨"", [], 0, ""⟩]
            [(0, 1), (1, 1)] : ℚ)
          / ([⟨"", [], 1, ""⟩, ⟨"", [], 0, ""⟩] : List Question).length) ∧
    (submitQuiz ⟨some "tok", none⟩
        ⟨[⟨"", [], 1, ""⟩, ⟨"", [], 0, ""⟩], [(0, 1), (1, 1)], false, 0⟩
        RequestResult.netFailure).quiz.quizScore = 50 := by
  refine ⟨by decide, C1_quiz_grading ⟨some "tok", none⟩
    ⟨[⟨"", [], 1, ""⟩, ⟨"", [], 0, ""⟩], [(0, 1), (1, 1)], false, 0⟩
    RequestResult.netFailure (by decide), ?_⟩
  show scoreOf [⟨"", [], 1, ""⟩, ⟨"", [], 0, ""⟩] [(0, 1), (1, 1)] = 50
  rw [scoreOf_eq_natDiv _ _ (by decide)]
  decide

/-- C2: in every quiz state reachable through the workspace UI, the Submit
Quiz button is enabled exactly when every question index has a selected
answer, and while it is disabled a click neither grades nor issues a
record-result request. -/
theorem C2_submit_gate (qs : List Question) (s : QuizState)
    (h : QuizReachable qs s) :
    (submitDisabled s = false ↔
      ∀ i < qs.length, (lookupAnswer s.quizAnswers i).isSome = true) ∧
    (∀ (auth : AuthState) (outcome : RequestResult Unit),
      submitDisabled s = true →
        (submitClick auth s outcome).quiz = s ∧
        (submitClick auth s outcome).recordPayload = none) := by
  obtain ⟨hq, hnd, hk⟩ := quizReachable_invariant h
  constructor
  · have hdis : submitDisabled s = false ↔
        qs.length ≤ (objectKeys s.quizAnswers).length := by
      simp [submitDisabled, hq, Nat.not_lt]
    rw [hdis, keys_cover_iff qs.length (objectKeys s.quizAnswers) hnd hk]
    constructor
    · intro hcov i hi
      exact (lookupAnswer_isSome_iff _ _).mpr (hcov i hi)
    · intro hans i hi
      exact (lookupAnswer_isSome_iff _ _).mp (hans i hi)
  · intro auth outcome hdis
    constructor <;> simp [submitClick, hdis]

/-- C2 witness: a one-question quiz with its single question answered has
the submit button enabled. -/
theorem C2_submit_gate_witness :
    submitDisabled (handleQuizAnswer
      (initialQuizState [⟨"q", ["a", "b"], 1, "e"⟩]) 0 1) = false := by
  exact (C2_submit_gate [⟨"q", ["a", "b"], 1, "e"⟩]
    (handleQuizAnswer (initialQuizState [⟨"q", ["a", "b"], 1, "e"⟩]) 0 1)
    (QuizReachable.answer 0 1 QuizReachable.init (by decide))).1.mpr (by decide)

/-- C3 counterexample: from a fresh workspace, selecting the quiz tab,
switching to the chat tab and re-selecting the quiz tab before the first
fetch resolves issues a second `/quiz` request — the guard checks only the
question cache, not the in-flight flag, so concurrent re-selection is not
idempotent and three selections issue two fetches, not one. -/
theorem C3_quiz_fetch_counterexample :
    (workspaceRun initialWorkspace
      [WorkspaceEvent.selectTab Tab.quiz, WorkspaceEvent.selectTab Tab.chat,
       WorkspaceEvent.selectTab Tab.quiz]).quizFetchCount = 2 := by
  decide

/-- C3 (amended): re-selecting the quiz tab while questions are already
cached never triggers another fetch — any sequence of tab selections leaves
the fetch count and the cached questions unchanged once the question list
is non-empty.  (Re-selection while the initial fetch is still pending does
issue another request, as the counterexample shows.) -/
theorem C3_quiz_fetch_cached_idempotent (s : WorkspaceState)
    (evs : List WorkspaceEvent)
    (hsel : ∀ e ∈ evs, isSelectEvent e = true)
    (hq : s.quizQuestions ≠ []) :
    (workspaceRun s evs).quizFetchCount = s.quizFetchCount ∧
    (workspaceRun s evs).quizQuestions = s.quizQuestions := by
  induction evs generalizing s with
  | nil => exact ⟨rfl, rfl⟩
  | cons e rest ih =>
    obtain ⟨t, rfl⟩ : ∃ t, e = WorkspaceEvent.selectTab t := by
      cases e with
      | selectTab t => exact ⟨t, rfl⟩
      | quizResolve qs => simpa [isSelectEvent] using hsel _ (List.mem_cons_self _ _)
      | quizFail => simpa [isSelectEvent] using hsel _ (List.mem_cons_self _ _)
    have hrest : ∀ x ∈ rest, isSelectEvent x = true :=
      fun x hx => hsel x (List.mem_cons_of_mem _ hx)
    have hempty : s.quizQuestions.isEmpty = false := by
      cases hqq : s.quizQuestions with
      | nil => exact absurd hqq hq
      | cons a l => rfl
    have hrun : workspaceRun s (WorkspaceEvent.selectTab t :: rest)
        = workspaceRun (workspaceStep s (WorkspaceEvent.selectTab t)) rest := rfl
    by_cases hts : t = s.activeTab
    · have hstep : workspaceStep s (WorkspaceEvent.selectTab t) = s := by
        simp [workspaceStep, hts]
      rw [hrun, hstep]
      exact ih s hrest hq
    · have hstep : workspaceStep s (WorkspaceEvent.selectTab t)
          = { s with activeTab := t } := by
        simp [workspaceStep, hts, hempty]
      rw [hrun, hstep]
      exact ih { s with activeTab := t } hrest hq

/-- C3 witness: with one cached question and the quiz tab active, switching
to chat and back to quiz leaves the fetch count at 1. -/
theorem C3_quiz_fetch_cached_idempotent_witness :
    (∀ e ∈ [WorkspaceEvent.selectTab Tab.chat, WorkspaceEvent.selectTab Tab.quiz],
        isSelectEvent e = true) ∧
    ((⟨Tab.quiz, [⟨"q", [], 0, ""⟩], false, 1, 0⟩ : WorkspaceState).quizQuestions ≠ []) ∧
    (workspaceRun ⟨Tab.quiz, [⟨"q", [], 0, ""⟩], false, 1, 0⟩
        [WorkspaceEvent.selectTab Tab.chat,
         WorkspaceEvent.selectTab Tab.quiz]).quizFetchCount = 1 := by
  refine ⟨by decide, by decide, ?_⟩
  exact (C3_quiz_fetch_cached_idempotent
    ⟨Tab.quiz, [⟨"q", [], 0, ""⟩], false, 1, 0⟩
    [WorkspaceEvent.selectTab Tab.chat, WorkspaceEvent.selectTab Tab.quiz]
    (by decide) (by decide)).1

/-- C4: for every chat send, the user-authored entry is appended to the log
and no event ever removes existing entries (every step only appends); on a
failed request the fixed fallback assistant message is appended and the
request is not retried. -/
theorem C4_chat_user_message_never_lost (s : ChatState) (e : ChatEvent) :
    (∃ t, (chatStep s e).chatHistory = s.chatHistory ++ t) ∧
    (∀ m : String, jsTrim m ≠ "" →
      (chatStep s (ChatEvent.send m)).chatHistory
        = s.chatHistory ++ [⟨Role.user, m⟩]) ∧
    (0 < s.pendingChat →
      (chatStep s ChatEvent.resolveErr).chatHistory
          = s.chatHistory ++ [⟨Role.assistant, fallbackContent⟩] ∧
      (chatStep s ChatEvent.resolveErr).pendingChat = s.pendingChat - 1) := by
  refine ⟨?_, ?_, ?_⟩
  · cases e with
    | send m =>
      by_cases hm : jsTrim m = ""
      · exact ⟨[], by simp [chatStep, hm]⟩
      · exact ⟨[⟨Role.user, m⟩], by simp [chatStep, hm]⟩
    | resolveOk a =>
      by_cases hp : s.pendingChat = 0
      · exact ⟨[], by simp [chatStep, hp]⟩
      · exact ⟨[⟨Role.assistant, a⟩], by simp [chatStep, hp]⟩
    | resolveErr =>
      by_cases hp : s.pendingChat = 0
      · exact ⟨[], by simp [chatStep, hp]⟩
      · exact ⟨[⟨Role.assistant, fallbackContent⟩], by simp [chatStep, hp]⟩
  · intro m hm
    simp [chatStep, hm]
  · intro hp
    have hp' : s.pendingChat ≠ 0 := Nat.pos_iff_ne_zero.mp hp
    exact ⟨by simp [chatStep, hp'], by simp [chatStep, hp']⟩

/-- C4 witness: sending "hello" appends the user entry, and a failure with
one request pending appends the fallback assistant entry after it. -/
theorem C4_chat_user_message_never_lost_witness :
    (jsTrim "hello" ≠ "") ∧
    (chatStep ⟨[], 0⟩ (ChatEvent.send "hello")).chatHistory
      = [] ++ [⟨Role.user, "hello"⟩] ∧
    (0 < 1) ∧
    (chatStep ⟨[⟨Role.user, "hello"⟩], 1⟩ ChatEvent.resolveErr).chatHistory
      = [⟨Role.user, "hello"⟩] ++ [⟨Role.assistant, fallbackContent⟩] := by
  refine ⟨by decide, ?_, by decide, ?_⟩
  · exact (C4_chat_user_message_never_lost ⟨[], 0⟩
      (ChatEvent.send "hello")).2.1 "hello" (by decide)
  · exact ((C4_chat_user_message_never_lost ⟨[⟨Role.user, "hello"⟩], 1⟩
      ChatEvent.resolveErr).2.2 (by decide)).1

/-- C5: sending "a" and then "b" before either request resolves puts both
user messages into the log in send order, with everything the resolutions
append afterwards being assistant entries — regardless of the order and
success of the responses. -/
theorem C5_chat_send_order (s : ChatState) (a b : String) (rs : List ChatEvent)
    (ha : jsTrim a ≠ "") (hb : jsTrim b ≠ "")
    (hrs : ∀ e ∈ rs, isResolveEvent e = true) :
    ∃ t, (chatRun (chatStep (chatStep s (ChatEvent.send a))
            (ChatEvent.send b)) rs).chatHistory
        = s.chatHistory ++ [⟨Role.user, a⟩, ⟨Role.user, b⟩] ++ t ∧
      ∀ m ∈ t, m.role = Role.assistant := by
  obtain ⟨t, ht, hta⟩ := chatRun_resolve_appendix rs hrs
    (chatStep (chatStep s (ChatEvent.send a)) (ChatEvent.send b))
  refine ⟨t, ?_, hta⟩
  rw [ht]
  simp [chatStep, ha, hb]

/-- C5 witness: sends "a" then "b", then the two responses arrive out of
order (a failure first, then an answer); the order of the user entries is
fixed. -/
theorem C5_chat_send_order_witness :
    (jsTrim "a" ≠ "") ∧ (jsTrim "b" ≠ "") ∧
    (∀ e ∈ [ChatEvent.resolveErr, ChatEvent.resolveOk "fine"],
        isResolveEvent e = true) ∧
    ∃ t, (chatRun (chatStep (chatStep ⟨[], 0⟩ (ChatEvent.send "a"))
            (ChatEvent.send "b"))
          [ChatEvent.resolveErr, ChatEvent.resolveOk "fine"]).chatHistory
        = [] ++ [⟨Role.user, "a"⟩, ⟨Role.user, "b"⟩] ++ t ∧
      ∀ m ∈ t, m.role = Role.assistant := by
  refine ⟨by decide, by decide, by decide, ?_⟩
  exact C5_chat_send_order ⟨[], 0⟩ "a" "b"
    [ChatEvent.resolveErr, ChatEvent.resolveOk "fine"]
    (by decide) (by decide) (by decide)

/-- C6 counterexample: the server rejects the pending delete with a 500
response, yet `deleteNote` removes the note from the local list anyway —
`authenticatedFetch` returns non-401 error responses without raising and
`deleteNote` never inspects the status, so the note does not remain. -/
theorem C6_note_delete_counterexample :
    (deleteNote ⟨some "tok", none⟩ ⟨[⟨1, "T", "C"⟩], ""⟩ 1
      (RequestResult.success ⟨500, ()⟩)).2.notes = [] := by
  rfl

/-- C6 (amended): a note is removed from the local list only after the
delete round trip completes, never pre-emptively; when the call raises (no
token, transport failure, or a 401 response) the note remains; a non-401
error response from the server, however, still removes it. -/
theorem C6_note_delete_amended (auth : AuthState) (s : NotesState) (noteId : Nat) :
    (∀ outcome : RequestResult Unit, auth.token = none →
      (deleteNote auth s noteId outcome).2 = s) ∧
    ((deleteNote auth s noteId RequestResult.netFailure).2 = s) ∧
    (∀ r : HttpResponse Unit, r.status = 401 →
      (deleteNote auth s noteId (RequestResult.success r)).2 = s) ∧
    (∀ (tk : String) (r : HttpResponse Unit), auth.token = some tk →
      r.status ≠ 401 →
      (deleteNote auth s noteId (RequestResult.success r)).2.notes
        = s.notes.filter (fun n => n.id != noteId)) := by
  refine ⟨?_, ?_, ?_, ?_⟩
  · intro o hnone
    simp [deleteNote, authenticatedFetch, hnone]
  · cases htk : auth.token with
    | none => simp [deleteNote, authenticatedFetch, htk]
    | some tk => simp [deleteNote, authenticatedFetch, htk]
  · intro r h401
    cases htk : auth.token with
    | none => simp [deleteNote, authenticatedFetch, htk]
    | some tk => simp [deleteNote, authenticatedFetch, htk, h401]
  · intro tk r htk hne
    simp [deleteNote, authenticatedFetch, htk, hne]

/-- C6 witness: with a token held, a transport failure and a 401 response
each leave the single-note list untouched. -/
theorem C6_note_delete_amended_witness :
    ((deleteNote ⟨some "tok", none⟩ ⟨[⟨1, "T", "C"⟩], ""⟩ 1
        RequestResult.netFailure).2 = ⟨[⟨1, "T", "C"⟩], ""⟩) ∧
    ((deleteNote ⟨some "tok", none⟩ ⟨[⟨1, "T", "C"⟩], ""⟩ 1
        (RequestResult.success ⟨401, ()⟩)).2 = ⟨[⟨1, "T", "C"⟩], ""⟩) := by
  have h := C6_note_delete_amended ⟨some "tok", none⟩ ⟨[⟨1, "T", "C"⟩], ""⟩ 1
  exact ⟨h.2.1, h.2.2.1 ⟨401, ()⟩ rfl⟩

/-- C7: the record-result call of `submitQuiz` is fire-and-forget — the quiz
state after submission is independent of the call's outcome, the submitted
flag is set and the results view shows, no user-facing error ever arises,
and when a token is held the request carries `{score, total_questions}`. -/
theorem C7_record_fire_and_forget (auth : AuthState) (s : QuizState)
    (o o' : RequestResult Unit) :
    (submitQuiz auth s o).quiz = (submitQuiz auth s o').quiz ∧
    (submitQuiz auth s o).quiz.quizSubmitted = true ∧
    (submitQuiz auth s o).quiz.quizScore = scoreOf s.quizQuestions s.quizAnswers ∧
    (submitQuiz auth s o).userError = none ∧
    quizResultsShown (submitQuiz auth s o).quiz = true ∧
    (∀ tk : String, auth.token = some tk →
      (submitQuiz auth s o).recordPayload
        = some (scoreOf s.quizQuestions s.quizAnswers, s.quizQuestions.length)) := by
  refine ⟨rfl, rfl, rfl, ?_, rfl, ?_⟩
  · show (match (authenticatedFetch (β := Unit) auth o).result with
      | .ok _ => (none : Option String)
      | .error _ => none) = none
    cases (authenticatedFetch (β := Unit) auth o).result with
    | ok r => rfl
    | error e => rfl
  · intro tk htk
    cases o with
    | netFailure => simp [submitQuiz, authenticatedFetch, htk]
    | success r =>
      by_cases h401 : r.status = 401
      · simp [submitQuiz, authenticatedFetch, htk, h401]
      · simp [submitQuiz, authenticatedFetch, htk, h401]

/-- C7 witness: with a token held and the record call failing at the
transport level, the submitted flag, the absence of a user-facing error and
the request payload are all as stated. -/
theorem C7_record_fire_and_forget_witness :
    (submitQuiz ⟨some "tok", none⟩ ⟨[⟨"q", [], 0, ""⟩], [(0, 0)], false, 0⟩
        RequestResult.netFailure).quiz.quizSubmitted = true ∧
    (submitQuiz ⟨some "tok", none⟩ ⟨[⟨"q", [], 0, ""⟩], [(0, 0)], false, 0⟩
        RequestResult.netFailure).userError = none ∧
    (submitQuiz ⟨some "tok", none⟩ ⟨[⟨"q", [], 0, ""⟩], [(0, 0)], false, 0⟩
        RequestResult.netFailure).recordPayload
      = some (scoreOf [⟨"q", [], 0, ""⟩] [(0, 0)], 1) := by
  have h := C7_record_fire_and_forget ⟨some "tok", none⟩
    ⟨[⟨"q", [], 0, ""⟩], [(0, 0)], false, 0⟩
    RequestResult.netFailure (RequestResult.success ⟨200, ()⟩)
  exact ⟨h.2.1, h.2.2.2.1, h.2.2.2.2.2 "tok" rfl⟩

/-- C8: `authenticatedFetch` fails with the no-session error and issues no
request exactly when no token is held; with a token held, a 401 response
clears the stored session and fails with the session-expired error; at most
one request is ever issued per call (no transparent retry); and after
`logout` every call fails with the no-session error. -/
theorem C8_authenticated_request (s : AuthState) :
    (∀ (β : Type) (o : RequestResult β),
      ((authenticatedFetch s o).result = Except.error AuthError.noSession ∧
        (authenticatedFetch s o).requestCount = 0) ↔ s.token = none) ∧
    (∀ (β : Type) (r : HttpResponse β), s.token ≠ none → r.status = 401 →
      (authenticatedFetch s (RequestResult.success r)).state.token = none ∧
      (authenticatedFetch s (RequestResult.success r)).result
        = Except.error AuthError.sessionExpired) ∧
    (∀ (β : Type) (o : RequestResult β),
      (authenticatedFetch s o).requestCount ≤ 1) ∧
    (∀ (β : Type) (o : RequestResult β),
      (authenticatedFetch (logout s) o).result
        = Except.error AuthError.noSession) := by
  refine ⟨?_, ?_, ?_, ?_⟩
  · intro β o
    cases htk : s.token with
    | none => simp [authenticatedFetch, htk]
    | some tk =>
      cases o with
      | netFailure => simp [authenticatedFetch, htk]
      | success r =>
        by_cases h401 : r.status = 401
        · simp [authenticatedFetch, htk, h401]
        · simp [authenticatedFetch, htk, h401]
  · intro β r htk h401
    cases hs : s.token with
    | none => exact absurd hs htk
    | some tk => constructor <;> simp [authenticatedFetch, logout, hs, h401]
  · intro β o
    cases htk : s.token with
    | none => simp [authenticatedFetch, htk]
    | some tk =>
      cases o with
      | netFailure => simp [authenticatedFetch, htk]
      | success r =>
        by_cases h401 : r.status = 401
        · simp [authenticatedFetch, htk, h401]
        · simp [authenticatedFetch, htk, h401]
  · intro β o
    simp [authenticatedFetch, logout]

/-- C8 witness: with no token the call fails with the no-session error
without issuing a request, and a held token plus a 401 response clears the
token. -/
theorem C8_authenticated_request_witness :
    ((authenticatedFetch (β := Unit) ⟨none, none⟩
        RequestResult.netFailure).result = Except.error AuthError.noSession) ∧
    ((authenticatedFetch (β := Unit) ⟨none, none⟩
        RequestResult.netFailure).requestCount = 0) ∧
    (authenticatedFetch (β := Unit) ⟨some "tok", none⟩
        (RequestResult.success ⟨401, ()⟩)).state.token = none := by
  have h1 := ((C8_authenticated_request ⟨none, none⟩).1 Unit
    RequestResult.netFailure).mpr rfl
  have h2 := (C8_authenticated_request ⟨some "tok", none⟩).2.1 Unit
    (⟨401, ()⟩ : HttpResponse Unit) (by simp) rfl
  exact ⟨h1.1, h1.2, h2.1⟩

/-- C9 counterexample: an analyze call from the video-input screen failing
at the transport level — `handleAnalyze`'s catch only logs to the console;
no user-facing error state exists in `App` and none is set, so no error is
surfaced to the user. -/
theorem C9_analyze_failure_counterexample :
    (handleAnalyze ⟨some "tok", none⟩
      ⟨"https://youtu.be/x", false, none, true, false, false, "signin"⟩
      RequestResult.netFailure).surfacedError = none ∧
    (handleAnalyze ⟨some "tok", none⟩
      ⟨"https://youtu.be/x", false, none, true, false, false, "signin"⟩
      RequestResult.netFailure).consoleLogged = true := by
  exact ⟨rfl, rfl⟩

/-- C9 (amended): when the analyze call fails with authentication expiry the
workflow transitions to the sign-in auth screen; when it fails for any
other thrown reason the workflow state is unchanged (the workspace is not
entered) and the `isAnalyzing` flag is cleared, but the failure is only
logged to the console — no error is surfaced to the user. -/
theorem C9_analyze_failure_amended (auth : AuthState) (app : AppState)
    (tk : String) (htk : auth.token = some tk)
    (hurl : app.youtubeUrl ≠ "") (hvd : app.videoData = none) :
    (∀ r : HttpResponse VideoData, r.status = 401 →
      renderView (handleAnalyze auth app (RequestResult.success r)).app
          = View.authPage "signin" ∧
      (handleAnalyze auth app (RequestResult.success r)).app.isAnalyzing = false ∧
      (handleAnalyze auth app (RequestResult.success r)).app.videoData = none) ∧
    ((handleAnalyze auth app RequestResult.netFailure).app
        = { app with isAnalyzing := false } ∧
      renderView (handleAnalyze auth app RequestResult.netFailure).app
        = renderView app ∧
      (handleAnalyze auth app RequestResult.netFailure).consoleLogged = true ∧
      (handleAnalyze auth app RequestResult.netFailure).surfacedError = none) := by
  constructor
  · intro r h401
    refine ⟨?_, ?_, ?_⟩
    · simp [handleAnalyze, authenticatedFetch, renderView, htk, hurl, h401, hvd]
    · simp [handleAnalyze, authenticatedFetch, htk, hurl, h401]
    · simp [handleAnalyze, authenticatedFetch, htk, hurl, h401, hvd]
  · have happ : (handleAnalyze auth app RequestResult.netFailure).app
        = { app with isAnalyzing := false } := by
      simp [handleAnalyze, authenticatedFetch, htk, hurl]
    refine ⟨happ, ?_, ?_, ?_⟩
    · rw [happ]
      simp [renderView]
    · simp [handleAnalyze, authenticatedFetch, htk, hurl]
    · simp [handleAnalyze, authenticatedFetch, htk, hurl]

/-- C9 witness: from the video-input screen with a held token, a 401 on
analyze lands on the sign-in screen, while a transport failure leaves the
screen unchanged with the analyzing flag cleared. -/
theorem C9_analyze_failure_amended_witness :
    renderView (handleAnalyze ⟨some "tok", none⟩
        ⟨"https://youtu.be/x", false, none, true, false, false, "signin"⟩
        (RequestResult.success ⟨401, ⟨"T", "Ch", "1:00", "S", "Tr"⟩⟩)).app
      = View.authPage "signin" ∧
    (handleAnalyze ⟨some "tok", none⟩
        ⟨"https://youtu.be/x", false, none, true, false, false, "signin"⟩
        RequestResult.netFailure).app
      = ⟨"https://youtu.be/x", false, none, true, false, false, "signin"⟩ ∧
    renderView (handleAnalyze ⟨some "tok", none⟩
        ⟨"https://youtu.be/x", false, none, true, false, false, "signin"⟩
        RequestResult.netFailure).app = View.videoInput := by
  have h := C9_analyze_failure_amended ⟨some "tok", none⟩
    ⟨"https://youtu.be/x", false, none, true, false, false, "signin"⟩
    "tok" rfl (by decide) rfl
  refine ⟨(h.1 ⟨401, ⟨"T", "Ch", "1:00", "S", "Tr"⟩⟩ rfl).1, h.2.1, ?_⟩
  rw [h.2.2.1]
  rfl

/-- C10: with a token held, `authenticatedFetch` raises on a received
response exactly when the status is 401 and returns every other response
unchanged, so `deleteNote` filters the local list and `saveNote` prepends
whatever JSON body the server returned even on 4xx/5xx error statuses,
exactly as on success. -/
theorem C10_only_401_raises (auth : AuthState) (tk : String)
    (htk : auth.token = some tk) :
    (∀ (β : Type) (r : HttpResponse β),
      (authenticatedFetch auth (RequestResult.success r)).result = Except.ok r
        ↔ r.status ≠ 401) ∧
    (∀ (s : NotesState) (noteId : Nat) (r : HttpResponse Unit),
      r.status ≠ 401 →
      (deleteNote auth s noteId (RequestResult.success r)).2.notes
        = s.notes.filter (fun n => n.id != noteId)) ∧
    (∀ (s : NotesState) (r : HttpResponse Note),
      r.status ≠ 401 → jsTrim s.newNote ≠ "" →
      (saveNote auth s (RequestResult.success r)).2.notes = r.body :: s.notes) := by
  refine ⟨?_, ?_, ?_⟩
  · intro β r
    by_cases h401 : r.status = 401
    · simp [authenticatedFetch, htk, h401]
    · simp [authenticatedFetch, htk, h401]
  · intro s noteId r h401
    simp [deleteNote, authenticatedFetch, htk, h401]
  · intro s r h401 hnn
    simp [saveNote, authenticatedFetch, htk, h401, hnn]

/-- C10 witness: a 500 response is returned without raising, `deleteNote`
removes the note on it, and `saveNote` prepends the 500 response's body. -/
theorem C10_only_401_raises_witness :
    ((authenticatedFetch ⟨some "tok", none⟩
        (RequestResult.success (⟨500, ()⟩ : HttpResponse Unit))).result
      = Except.ok ⟨500, ()⟩) ∧
    ((deleteNote ⟨some "tok", none⟩ ⟨[⟨1, "T", "C"⟩], ""⟩ 1
        (RequestResult.success ⟨500, ()⟩)).2.notes
      = [⟨1, "T", "C"⟩].filter (fun n => n.id != 1)) ∧
    ((saveNote ⟨some "tok", none⟩ ⟨[], "draft"⟩
        (RequestResult.success ⟨500, ⟨7, "t", "c"⟩⟩)).2.notes
      = [⟨7, "t", "c"⟩]) := by
  have h := C10_only_401_raises ⟨some "tok", none⟩ "tok" rfl
  refine ⟨(h.1 Unit ⟨500, ()⟩).mpr (by decide), ?_, ?_⟩
  · exact h.2.1 ⟨[⟨1, "T", "C"⟩], ""⟩ 1 ⟨500, ()⟩ (by decide)
  · exact h.2.2 ⟨[], "draft"⟩ ⟨500, ⟨7, "t", "c"⟩⟩ (by decide) (by decide)

end Zyndle
